import Mathlib

/-!
Shallow embedding of the Stripe webhook reconciliation pipeline of
rhyme-time-app (the full handler variant: the `/stripe-webhook` route, the
five event handlers `handleCheckoutCompleted`, `handleSubscriptionChanged`,
`handleSubscriptionDeleted`, `handlePaymentSucceeded`, `handlePaymentFailed`,
and the Supabase `updateSubscription` upsert helper).

Modelling conventions:
  * Timestamps are `Int` milliseconds; `new Date().toISOString()` at
    processing time is the parameter `now`, and
    `new Date(sec * 1000).toISOString()` is `sec * 1000`.
  * JavaScript `x || null` on an optional string (which also maps the empty
    string to null) is `jsOrNull`; `x || d` with a string default is
    `(jsOrNull x).getD d`.
  * The Supabase table is an association list from email to record; a
    PostgREST upsert with conflict target `email` updates exactly the
    supplied columns of the existing row (or inserts a fresh row whose
    unsupplied columns are NULL).  A patch field `none` means the column is
    absent from the payload, `some v` means it is present with value `v`
    (where `v` may itself be `none`, i.e. an explicit SQL NULL).
  * Thrown JS errors are `Except.error`; the provider SDK lookups are
    `Except`-valued functions supplied in a `Provider` record.  Store
    failure (the Supabase upsert returning an error object) is the
    `storeFails` flag on `updateSubscription`.
  * Every handler performs at most one upsert, and it is the final action
    of the handler, so a request that ends in a thrown error has performed
    no store write; the route-level model therefore returns the original
    store alongside the 400 response.
-/

namespace RhymeTime

/-- JavaScript `x || null` on an optional string: `undefined`, `null` and
the empty string are all falsy and collapse to `null`. -/
def jsOrNull : Option String → Option String
  | none => none
  | some s => if s = "" then none else some s

/-- One row of the Supabase `subscriptions` table (every column nullable;
the `email` key itself is held next to the record in the store). -/
structure SubRecord where
  plan : Option String
  status : Option String
  current_period_start : Option Int
  current_period_end : Option Int
  canceled_at : Option Int
  stripe_subscription_id : Option String
  stripe_customer_id : Option String
  updated_at : Option Int
  deriving DecidableEq, Repr

/-- A freshly inserted row: every column not supplied by the upsert payload
is NULL. -/
def emptyRecord : SubRecord :=
  { plan := none, status := none, current_period_start := none,
    current_period_end := none, canceled_at := none,
    stripe_subscription_id := none, stripe_customer_id := none,
    updated_at := none }

/-- The partial field set passed to `updateSubscription` / the upsert:
`none` = column absent from the JS object, `some v` = column present with
value `v` (possibly an explicit null). -/
structure SubPatch where
  plan : Option (Option String) := none
  status : Option (Option String) := none
  current_period_start : Option (Option Int) := none
  current_period_end : Option (Option Int) := none
  canceled_at : Option (Option Int) := none
  stripe_subscription_id : Option (Option String) := none
  stripe_customer_id : Option (Option String) := none
  updated_at : Option (Option Int) := none
  deriving DecidableEq, Repr

/-- PostgREST upsert column semantics: supplied columns overwrite, absent
columns keep their current value. -/
def applyPatch (r : SubRecord) (p : SubPatch) : SubRecord :=
  { plan := p.plan.getD r.plan,
    status := p.status.getD r.status,
    current_period_start := p.current_period_start.getD r.current_period_start,
    current_period_end := p.current_period_end.getD r.current_period_end,
    canceled_at := p.canceled_at.getD r.canceled_at,
    stripe_subscription_id := p.stripe_subscription_id.getD r.stripe_subscription_id,
    stripe_customer_id := p.stripe_customer_id.getD r.stripe_customer_id,
    updated_at := p.updated_at.getD r.updated_at }

/-- The `subscriptions` table, keyed by email. -/
abbrev Store := List (String × SubRecord)

/-- Row lookup by email (the table has at most one row per email). -/
def findRec : Store → String → Option SubRecord
  | [], _ => none
  | (e, r) :: rest, email => if e = email then some r else findRec rest email

/-- Replace the row for `email` in place, or append a new row. -/
def putRec : Store → String → SubRecord → Store
  | [], email, r => [(email, r)]
  | (e, r0) :: rest, email, r =>
      if e = email then (e, r) :: rest else (e, r0) :: putRec rest email r

/-- `supabase.from('subscriptions').upsert(payload, onConflict email)`:
merge the supplied columns into the existing row, or insert a fresh row. -/
def supabaseUpsert (store : Store) (email : String) (p : SubPatch) : Store :=
  putRec store email (applyPatch ((findRec store email).getD emptyRecord) p)

/-- A thrown JS error: either a `new Error(msg)` or the Supabase error
object rethrown by `updateSubscription`. -/
inductive JsErr where
  | jsError (msg : String)
  | storeError
  deriving DecidableEq, Repr

/-- `updateSubscription(email, subscriptionData)`: spread the partial
fields, always stamp `updated_at`, upsert by email, and rethrow the
Supabase error if the upsert fails. -/
def updateSubscription (storeFails : Bool) (now : Int) (store : Store)
    (email : String) (p : SubPatch) : Except JsErr Store :=
  if storeFails then .error .storeError
  else .ok (supabaseUpsert store email { p with updated_at := some (some now) })

/-- The checkout session object (both the event payload object and the
re-fetched full session). -/
structure Session where
  id : String
  customer_details_email : Option String
  customer : Option String
  subscription : Option String
  deriving DecidableEq, Repr

/-- A Stripe subscription object; `interval` is the value of the optional
chain `items.data[0]?.price?.recurring?.interval`. -/
structure StripeSub where
  id : String
  customer : String
  interval : Option String
  status : String
  current_period_start : Int
  current_period_end : Int
  deriving DecidableEq, Repr

/-- A Stripe customer object. -/
structure Customer where
  email : Option String
  deriving DecidableEq, Repr

/-- A Stripe invoice object. -/
structure Invoice where
  id : String
  customer : String
  subscription : Option String
  deriving DecidableEq, Repr

/-- The provider SDK lookups used by the handlers:
`stripe.checkout.sessions.retrieve`, `stripe.subscriptions.retrieve`,
`stripe.customers.retrieve`.  Each may throw (network failure etc.). -/
structure Provider where
  sessions : String → Except JsErr Session
  subscriptions : String → Except JsErr StripeSub
  customers : String → Except JsErr Customer

/-- `handleCheckoutCompleted(session)`: re-fetch the full session, derive
plan/status/period (from the re-fetched subscription when one exists,
one-time defaults otherwise), and upsert by email.  The surrounding
try/catch rethrows, so it is transparent to the model. -/
def handleCheckoutCompleted (P : Provider) (now : Int) (storeFails : Bool)
    (store : Store) (session : Session) : Except JsErr Store :=
  match P.sessions session.id with
  | .error e => .error e
  | .ok fullSession =>
    match jsOrNull fullSession.customer_details_email with
    | none => .error (.jsError "No email found in session")
    | some email =>
      match jsOrNull fullSession.subscription with
      | none =>
        updateSubscription storeFails now store email
          { plan := some (some "one_time"),
            status := some (some "active"),
            current_period_start := some (some now),
            current_period_end := some none,
            stripe_subscription_id := some none,
            stripe_customer_id := some (jsOrNull fullSession.customer) }
      | some subscriptionId =>
        match P.subscriptions subscriptionId with
        | .error e => .error e
        | .ok sub =>
          updateSubscription storeFails now store email
            { plan := some (some ((jsOrNull sub.interval).getD "unknown")),
              status := some (some sub.status),
              current_period_start := some (some (sub.current_period_start * 1000)),
              current_period_end := some (some (sub.current_period_end * 1000)),
              stripe_subscription_id := some (some subscriptionId),
              stripe_customer_id := some (jsOrNull fullSession.customer) }

/-- `handleSubscriptionChanged(subscription)`: resolve the owning email via
the customer reference, then upsert plan/status/period from the
subscription object. -/
def handleSubscriptionChanged (P : Provider) (now : Int) (storeFails : Bool)
    (store : Store) (sub : StripeSub) : Except JsErr Store :=
  match P.customers sub.customer with
  | .error e => .error e
  | .ok customer =>
    match jsOrNull customer.email with
    | none => .error (.jsError "No email found for customer")
    | some email =>
      updateSubscription storeFails now store email
        { plan := some (some ((jsOrNull sub.interval).getD "unknown")),
          status := some (some sub.status),
          current_period_start := some (some (sub.current_period_start * 1000)),
          current_period_end := some (some (sub.current_period_end * 1000)),
          stripe_subscription_id := some (some sub.id) }

/-- `handleSubscriptionDeleted(subscription)`: resolve the owning email,
then upsert only `status = canceled` and `canceled_at = now`. -/
def handleSubscriptionDeleted (P : Provider) (now : Int) (storeFails : Bool)
    (store : Store) (sub : StripeSub) : Except JsErr Store :=
  match P.customers sub.customer with
  | .error e => .error e
  | .ok customer =>
    match jsOrNull customer.email with
    | none => .error (.jsError "No email found for customer")
    | some email =>
      updateSubscription storeFails now store email
        { status := some (some "canceled"),
          canceled_at := some (some now) }

/-- `handlePaymentSucceeded(invoice)`: when the invoice references a
subscription, re-fetch it and delegate to `handleSubscriptionChanged`;
otherwise do nothing. -/
def handlePaymentSucceeded (P : Provider) (now : Int) (storeFails : Bool)
    (store : Store) (invoice : Invoice) : Except JsErr Store :=
  match jsOrNull invoice.subscription with
  | none => .ok store
  | some subscriptionId =>
    match P.subscriptions subscriptionId with
    | .error e => .error e
    | .ok sub => handleSubscriptionChanged P now storeFails store sub

/-- `handlePaymentFailed(invoice)`: resolve the email and, when present,
upsert `status = past_due`.  Its try/catch does NOT rethrow, so lookup and
store failures are swallowed (logged only) and the store is left as the
failed upsert left it, i.e. unchanged. -/
def handlePaymentFailed (P : Provider) (now : Int) (storeFails : Bool)
    (store : Store) (invoice : Invoice) : Except JsErr Store :=
  match P.customers invoice.customer with
  | .error _ => .ok store
  | .ok customer =>
    match jsOrNull customer.email with
    | none => .ok store
    | some email =>
      match updateSubscription storeFails now store email
          { status := some (some "past_due") } with
      | .ok s => .ok s
      | .error _ => .ok store

/-- The normalized event produced by `stripe.webhooks.constructEvent`: the
five recognized `event.type` strings carry their `event.data.object`, any
other type string falls into the switch's default branch. -/
inductive Event where
  | checkoutCompleted (session : Session)
  | subscriptionUpdated (sub : StripeSub)
  | subscriptionDeleted (sub : StripeSub)
  | paymentSucceeded (invoice : Invoice)
  | paymentFailed (invoice : Invoice)
  | unknown (type : String)
  deriving DecidableEq, Repr

/-- The switch over `event.type` in the webhook route; the default branch
only logs. -/
def processEvent (P : Provider) (now : Int) (storeFails : Bool)
    (store : Store) : Event → Except JsErr Store
  | .checkoutCompleted s => handleCheckoutCompleted P now storeFails store s
  | .subscriptionUpdated sub => handleSubscriptionChanged P now storeFails store sub
  | .subscriptionDeleted sub => handleSubscriptionDeleted P now storeFails store sub
  | .paymentSucceeded inv => handlePaymentSucceeded P now storeFails store inv
  | .paymentFailed inv => handlePaymentFailed P now storeFails store inv
  | .unknown _ => .ok store

/-- An inbound webhook request: the raw body bytes and the
`stripe-signature` header. -/
structure Request where
  body : List Nat
  sig : String

/-- The `/stripe-webhook` route.  `verify` is the signature check performed
inside `stripe.webhooks.constructEvent` against the raw body and the
signing secret (the SDK is an external collaborator; a failed check throws,
landing in the route's catch branch), and `parse` is the SDK's payload
parsing.  The route answers `200` on success and `400` from the catch
branch on any thrown error; at most one upsert happens per request and
only as the final action, so the store is unchanged on the 400 path. -/
def stripeWebhook (verify : List Nat → String → Bool)
    (parse : List Nat → Event) (P : Provider) (now : Int)
    (storeFails : Bool) (store : Store) (req : Request) : Nat × Store :=
  if verify req.body req.sig then
    match processEvent P now storeFails store (parse req.body) with
    | .ok s => (200, s)
    | .error _ => (400, store)
  else
    (400, store)

/-- A sequence of deliveries, each at its own processing time; a delivery
whose handler throws leaves the store unchanged (the route catches and
answers 400) and later deliveries continue from the same store. -/
def runEvents (P : Provider) (storeFails : Bool) :
    Store → List (Int × Event) → Store
  | store, [] => store
  | store, (t, ev) :: rest =>
    match processEvent P t storeFails store ev with
    | .ok s => runEvents P storeFails s rest
    | .error _ => runEvents P storeFails store rest

/-- The cancellation invariant of the spec: every row whose `status` is
`canceled` carries a non-null `canceled_at`. -/
def cancelInvariant (s : Store) : Prop :=
  ∀ e r, findRec s e = some r → r.status = some "canceled" →
    r.canceled_at ≠ none

/-- Side condition for the amended cancellation claim: the event does not
pass a provider-side status of `canceled` through the status-copying
handlers (`subscription_updated`, `checkout_completed` with a subscription,
and `payment_succeeded`, which delegates to `subscription_updated`). -/
def noCanceledPassthrough (P : Provider) : Event → Prop
  | .checkoutCompleted s =>
      ∀ fs, P.sessions s.id = .ok fs →
        ∀ sid, jsOrNull fs.subscription = some sid →
          ∀ sub, P.subscriptions sid = .ok sub → sub.status ≠ "canceled"
  | .subscriptionUpdated sub => sub.status ≠ "canceled"
  | .paymentSucceeded inv =>
      ∀ sid, jsOrNull inv.subscription = some sid →
        ∀ sub, P.subscriptions sid = .ok sub → sub.status ≠ "canceled"
  | _ => True

/-- Erase the bookkeeping field `updated_at`, the one field the spec allows
to differ between deliveries. -/
def sansUpdated (r : SubRecord) : SubRecord := { r with updated_at := none }

/-- The row a processing result holds for `email`: `none` when processing
failed or the row is absent. -/
def recordAfter (res : Except JsErr Store) (email : String) : Option SubRecord :=
  match res with
  | .ok st => findRec st email
  | .error _ => none

/-- The effective upsert payload (including the stamped `updated_at`) of a
`checkout_completed` whose re-fetched session references subscription
`sid`, resolved to `sub`, with customer id `cust`. -/
def checkoutSubPatch (now : Int) (sid : String) (sub : StripeSub)
    (cust : Option String) : SubPatch :=
  { plan := some (some ((jsOrNull sub.interval).getD "unknown")),
    status := some (some sub.status),
    current_period_start := some (some (sub.current_period_start * 1000)),
    current_period_end := some (some (sub.current_period_end * 1000)),
    stripe_subscription_id := some (some sid),
    stripe_customer_id := some cust,
    updated_at := some (some now) }

/-! ### Sample provider objects, used to instantiate hypotheses -/

/-- A monthly active subscription object. -/
def sampleSub : StripeSub :=
  { id := "sub_1", customer := "cus_1",
    interval := some "month", status := "active",
    current_period_start := 100, current_period_end := 200 }

/-- A customer with an email. -/
def sampleCustomer : Customer := { email := some "a@b.c" }

/-- A session referencing a subscription and carrying an email. -/
def sampleSession : Session :=
  { id := "cs_1", customer_details_email := some "a@b.c",
    customer := some "cus_1", subscription := some "sub_1" }

/-- A provider on which every lookup succeeds. -/
def sampleProvider : Provider :=
  { sessions := fun _ => .ok sampleSession,
    subscriptions := fun _ => .ok sampleSub,
    customers := fun _ => .ok sampleCustomer }

/-- A session with no customer email. -/
def noEmailSession : Session :=
  { id := "cs_2", customer_details_email := none,
    customer := some "cus_1", subscription := none }

/-- A provider whose session lookup yields the email-less session. -/
def noEmailProvider : Provider :=
  { sessions := fun _ => .ok noEmailSession,
    subscriptions := fun _ => .ok sampleSub,
    customers := fun _ => .ok sampleCustomer }

/-- A session with an email and no subscription id (one-time purchase). -/
def oneTimeSession : Session :=
  { id := "cs_3", customer_details_email := some "a@b.c",
    customer := none, subscription := none }

/-- A provider whose session lookup yields the one-time session. -/
def oneTimeProvider : Provider :=
  { sessions := fun _ => .ok oneTimeSession,
    subscriptions := fun _ => .ok sampleSub,
    customers := fun _ => .ok sampleCustomer }

/-- A subscription object whose provider-side status is `canceled`. -/
def canceledSub : StripeSub :=
  { id := "sub_2", customer := "cus_1", interval := some "month",
    status := "canceled", current_period_start := 100,
    current_period_end := 200 }

/-- An invoice referencing a subscription. -/
def sampleInvoice : Invoice :=
  { id := "in_1", customer := "cus_1", subscription := some "sub_1" }

/-! ### Store lemmas -/

theorem findRec_putRec_self (s : Store) (e : String) (r : SubRecord) :
    findRec (putRec s e r) e = some r := by
  induction s with
  | nil => simp [putRec, findRec]
  | cons hd tl ih =>
    by_cases h : hd.1 = e
    · simp [putRec, findRec, h]
    · simp [putRec, findRec, h, ih]

theorem findRec_putRec_ne (s : Store) (e e' : String) (r : SubRecord)
    (h : e' ≠ e) : findRec (putRec s e r) e' = findRec s e' := by
  have hne : ¬ e = e' := fun hh => h hh.symm
  induction s with
  | nil => simp [putRec, findRec, hne]
  | cons hd tl ih =>
    obtain ⟨k, v⟩ := hd
    by_cases h1 : k = e
    · have h2 : ¬ k = e' := fun hh => hne (h1.symm.trans hh)
      simp [putRec, findRec, h1, h2, hne]
    · simp only [putRec, h1, if_false]
      simp only [findRec, ih]

theorem cancelInvariant_putRec (s : Store) (em : String) (r : SubRecord)
    (hs : cancelInvariant s)
    (hr : r.status = some "canceled" → r.canceled_at ≠ none) :
    cancelInvariant (putRec s em r) := by
  intro e rec hfind hst
  by_cases h : e = em
  · subst h
    rw [findRec_putRec_self] at hfind
    cases hfind
    exact hr hst
  · rw [findRec_putRec_ne _ _ _ _ h] at hfind
    exact hs e rec hfind hst

theorem cancelInvariant_upsert (store : Store) (em : String) (p : SubPatch)
    (hs : cancelInvariant store)
    (hp : ∀ base, (applyPatch base p).status = some "canceled" →
      (applyPatch base p).canceled_at ≠ none) :
    cancelInvariant (supabaseUpsert store em p) := by
  unfold supabaseUpsert
  exact cancelInvariant_putRec _ _ _ hs (hp _)

theorem updateSubscription_ok (storeFails : Bool) (now : Int) (store : Store)
    (email : String) (p : SubPatch) (s : Store)
    (h : updateSubscription storeFails now store email p = .ok s) :
    storeFails = false ∧
      s = supabaseUpsert store email { p with updated_at := some (some now) } := by
  cases storeFails with
  | true => simp [updateSubscription] at h
  | false =>
    simp only [updateSubscription, if_false, Bool.false_eq_true] at h
    cases h
    exact ⟨rfl, rfl⟩

/-! ### Claim C1: invalid signature -/

/-- Claim C1: for every inbound request whose signature does not verify
against the raw body and the signing secret, the endpoint responds 400 and
performs no store write (the store is returned unchanged; no upsert is
reached). -/
theorem claim1_invalid_signature_rejected (verify : List Nat → String → Bool)
    (parse : List Nat → Event) (P : Provider) (now : Int) (storeFails : Bool)
    (store : Store) (req : Request)
    (h : verify req.body req.sig = false) :
    stripeWebhook verify parse P now storeFails store req = (400, store) := by
  simp [stripeWebhook, h]

/-- Witness for C1 at a concrete request whose signature check fails. -/
theorem claim1_invalid_signature_rejected_witness :
    stripeWebhook (fun _ _ => false) (fun _ => Event.unknown "evt")
      sampleProvider 0 false [] { body := [1, 2], sig := "bad" } = (400, []) :=
  claim1_invalid_signature_rejected _ _ _ _ _ _ _ rfl

/-! ### Claim C10: unknown event kind -/

/-- Claim C10: every validly signed event whose kind is not one of the five
known kinds takes the logged default branch: the endpoint responds 200, the
store is untouched, and no error is raised. -/
theorem claim10_unknown_kind_noop (verify : List Nat → String → Bool)
    (parse : List Nat → Event) (P : Provider) (now : Int) (storeFails : Bool)
    (store : Store) (req : Request) (t : String)
    (hv : verify req.body req.sig = true)
    (hp : parse req.body = Event.unknown t) :
    stripeWebhook verify parse P now storeFails store req = (200, store) := by
  simp [stripeWebhook, hv, hp, processEvent]

/-- Witness for C10 at a concrete unrecognized event type. -/
theorem claim10_unknown_kind_noop_witness :
    stripeWebhook (fun _ _ => true) (fun _ => Event.unknown "charge.refunded")
      sampleProvider 0 false [] { body := [], sig := "sig" } = (200, []) :=
  claim10_unknown_kind_noop _ _ _ _ _ _ _ "charge.refunded" rfl rfl

/-! ### Claim C3: transient failures (corrected) -/

/-- Counterexample to claim C3 as stated: with the store upsert failing on
a validly signed `subscription_deleted` event (all provider lookups
succeeding), the endpoint responds 400 — a 4xx, not the claimed 5xx/500. -/
theorem claim3_store_failure_cex :
    (stripeWebhook (fun _ _ => true)
        (fun _ => Event.subscriptionDeleted sampleSub)
        sampleProvider 0 true [] { body := [], sig := "sig" }).1 = 400 ∧
    ¬ 500 ≤ (stripeWebhook (fun _ _ => true)
        (fun _ => Event.subscriptionDeleted sampleSub)
        sampleProvider 0 true [] { body := [], sig := "sig" }).1 := by
  decide

/-- Claim C3 amended: a processing failure (provider lookup failure or
store upsert failure) propagates to the route's catch branch, which
responds 400 — a client error, not a 5xx — and the store is unchanged; the
failure is not silently swallowed into a 200. -/
theorem claim3_transient_failure_400 (verify : List Nat → String → Bool)
    (parse : List Nat → Event) (P : Provider) (now : Int) (storeFails : Bool)
    (store : Store) (req : Request) (e : JsErr)
    (hv : verify req.body req.sig = true)
    (hp : processEvent P now storeFails store (parse req.body) = .error e) :
    stripeWebhook verify parse P now storeFails store req = (400, store) := by
  simp [stripeWebhook, hv, hp]

/-- Witness for the amended C3: a concrete store failure yields 400 with
the store unchanged. -/
theorem claim3_transient_failure_400_witness :
    stripeWebhook (fun _ _ => true)
      (fun _ => Event.subscriptionDeleted sampleSub)
      sampleProvider 0 true [] { body := [], sig := "sig" } = (400, []) :=
  claim3_transient_failure_400 _ _ _ _ _ _ _ JsErr.storeError rfl rfl

/-! ### Claim C5: missing email (corrected) -/

/-- Counterexample to claim C5 as stated: a validly signed
`checkout_completed` event whose re-fetched session has no email is NOT
acknowledged with 200 — the handler throws and the endpoint responds
400. -/
theorem claim5_missing_email_cex :
    (stripeWebhook (fun _ _ => true)
        (fun _ => Event.checkoutCompleted noEmailSession)
        noEmailProvider 7 false [] { body := [], sig := "sig" }).1 = 400 ∧
    (stripeWebhook (fun _ _ => true)
        (fun _ => Event.checkoutCompleted noEmailSession)
        noEmailProvider 7 false [] { body := [], sig := "sig" }).1 ≠ 200 := by
  decide

/-- Claim C5 amended: when no email can be determined for a
`checkout_completed` event (the re-fetched session carries none), no upsert
reaches the store (the store is returned unchanged), and the thrown error
propagates to the catch branch: the endpoint responds 400 rather than
acknowledging with 200. -/
theorem claim5_missing_email_no_write (verify : List Nat → String → Bool)
    (parse : List Nat → Event) (P : Provider) (now : Int) (storeFails : Bool)
    (store : Store) (req : Request) (s : Session) (fs : Session)
    (hv : verify req.body req.sig = true)
    (hp : parse req.body = Event.checkoutCompleted s)
    (hs : P.sessions s.id = .ok fs)
    (he : jsOrNull fs.customer_details_email = none) :
    stripeWebhook verify parse P now storeFails store req = (400, store) := by
  simp [stripeWebhook, hv, hp, processEvent, handleCheckoutCompleted, hs, he]

/-- Witness for the amended C5 at a concrete email-less session. -/
theorem claim5_missing_email_no_write_witness :
    stripeWebhook (fun _ _ => true)
      (fun _ => Event.checkoutCompleted noEmailSession)
      noEmailProvider 7 false [] { body := [], sig := "sig" } = (400, []) :=
  claim5_missing_email_no_write _ _ _ _ _ _ _ noEmailSession noEmailSession
    rfl rfl rfl rfl

/-! ### Claim C6: checkout with subscription takes fields from the
re-fetched subscription -/

/-- Claim C6: processing `checkout_completed` for a session whose
re-fetched full session references a subscription id writes a record whose
plan, status and period fields are all taken from the freshly re-fetched
subscription object (period epoch-seconds converted to timestamps), not
from the event's session payload — the derived values mention only the
re-fetched subscription. -/
theorem claim6_checkout_fields_from_subscription (P : Provider) (now : Int)
    (store : Store) (s fs : Session) (em sid : String) (sub : StripeSub)
    (hs : P.sessions s.id = .ok fs)
    (he : jsOrNull fs.customer_details_email = some em)
    (hsid : jsOrNull fs.subscription = some sid)
    (hsub : P.subscriptions sid = .ok sub) :
    (recordAfter (processEvent P now false store (Event.checkoutCompleted s))
        em).map SubRecord.plan
      = some (some ((jsOrNull sub.interval).getD "unknown")) ∧
    (recordAfter (processEvent P now false store (Event.checkoutCompleted s))
        em).map SubRecord.status = some (some sub.status) ∧
    (recordAfter (processEvent P now false store (Event.checkoutCompleted s))
        em).map SubRecord.current_period_start
      = some (some (sub.current_period_start * 1000)) ∧
    (recordAfter (processEvent P now false store (Event.checkoutCompleted s))
        em).map SubRecord.current_period_end
      = some (some (sub.current_period_end * 1000)) := by
  simp only [processEvent, handleCheckoutCompleted, hs, he, hsid, hsub,
    updateSubscription, Bool.false_eq_true, if_false, supabaseUpsert,
    recordAfter, findRec_putRec_self]
  simp [applyPatch]

/-- Witness for C6 on the sample provider. -/
theorem claim6_checkout_fields_from_subscription_witness :
    (recordAfter (processEvent sampleProvider 9 false []
        (Event.checkoutCompleted sampleSession)) "a@b.c").map SubRecord.plan
      = some (some ((jsOrNull sampleSub.interval).getD "unknown")) ∧
    (recordAfter (processEvent sampleProvider 9 false []
        (Event.checkoutCompleted sampleSession)) "a@b.c").map SubRecord.status
      = some (some sampleSub.status) ∧
    (recordAfter (processEvent sampleProvider 9 false []
        (Event.checkoutCompleted sampleSession))
        "a@b.c").map SubRecord.current_period_start
      = some (some (sampleSub.current_period_start * 1000)) ∧
    (recordAfter (processEvent sampleProvider 9 false []
        (Event.checkoutCompleted sampleSession))
        "a@b.c").map SubRecord.current_period_end
      = some (some (sampleSub.current_period_end * 1000)) :=
  claim6_checkout_fields_from_subscription sampleProvider 9 [] sampleSession
    sampleSession "a@b.c" "sub_1" sampleSub rfl (by decide) (by decide) rfl

/-! ### Claim C7: checkout without subscription -/

/-- Claim C7: processing `checkout_completed` for a session whose
re-fetched full session has no subscription id writes a record with
plan `one_time`, status `active`, `current_period_start` equal to the
processing time and `current_period_end` null. -/
theorem claim7_checkout_one_time (P : Provider) (now : Int) (store : Store)
    (s fs : Session) (em : String)
    (hs : P.sessions s.id = .ok fs)
    (he : jsOrNull fs.customer_details_email = some em)
    (hsid : jsOrNull fs.subscription = none) :
    (recordAfter (processEvent P now false store (Event.checkoutCompleted s))
        em).map SubRecord.plan = some (some "one_time") ∧
    (recordAfter (processEvent P now false store (Event.checkoutCompleted s))
        em).map SubRecord.status = some (some "active") ∧
    (recordAfter (processEvent P now false store (Event.checkoutCompleted s))
        em).map SubRecord.current_period_start = some (some now) ∧
    (recordAfter (processEvent P now false store (Event.checkoutCompleted s))
        em).map SubRecord.current_period_end = some none := by
  simp only [processEvent, handleCheckoutCompleted, hs, he, hsid,
    updateSubscription, Bool.false_eq_true, if_false, supabaseUpsert,
    recordAfter, findRec_putRec_self]
  simp [applyPatch]

/-- Witness for C7 on the one-time session. -/
theorem claim7_checkout_one_time_witness :
    (recordAfter (processEvent oneTimeProvider 11 false []
        (Event.checkoutCompleted oneTimeSession)) "a@b.c").map SubRecord.plan
      = some (some "one_time") ∧
    (recordAfter (processEvent oneTimeProvider 11 false []
        (Event.checkoutCompleted oneTimeSession)) "a@b.c").map SubRecord.status
      = some (some "active") ∧
    (recordAfter (processEvent oneTimeProvider 11 false []
        (Event.checkoutCompleted oneTimeSession))
        "a@b.c").map SubRecord.current_period_start = some (some 11) ∧
    (recordAfter (processEvent oneTimeProvider 11 false []
        (Event.checkoutCompleted oneTimeSession))
        "a@b.c").map SubRecord.current_period_end = some none :=
  claim7_checkout_one_time oneTimeProvider 11 [] oneTimeSession oneTimeSession
    "a@b.c" rfl (by decide) rfl

/-! ### Claim C8: subscription_deleted frame -/

/-- Claim C8: processing `subscription_deleted` for an email with an
existing record sets exactly `status = canceled`, `canceled_at = now` and
the bookkeeping `updated_at = now` on that record, and every other field
keeps the existing record's value. -/
theorem claim8_subscription_deleted_frame (P : Provider) (now : Int)
    (store : Store) (sub : StripeSub) (c : Customer) (em : String)
    (r : SubRecord)
    (hc : P.customers sub.customer = .ok c)
    (he : jsOrNull c.email = some em)
    (hr : findRec store em = some r) :
    processEvent P now false store (Event.subscriptionDeleted sub) =
      .ok (putRec store em
        { r with status := some "canceled", canceled_at := some now,
                 updated_at := some now }) := by
  simp only [processEvent, handleSubscriptionDeleted, hc, he,
    updateSubscription, Bool.false_eq_true, if_false, supabaseUpsert, hr]
  rfl

/-- Witness for C8: deleting on a store holding a populated record keeps
the plan and period fields. -/
theorem claim8_subscription_deleted_frame_witness :
    processEvent sampleProvider 42 false
      [("a@b.c",
        { plan := some "month", status := some "active",
          current_period_start := some 100000,
          current_period_end := some 200000, canceled_at := none,
          stripe_subscription_id := some "sub_1",
          stripe_customer_id := some "cus_1", updated_at := some 1 })]
      (Event.subscriptionDeleted sampleSub) =
      .ok (putRec
        [("a@b.c",
          { plan := some "month", status := some "active",
            current_period_start := some 100000,
            current_period_end := some 200000, canceled_at := none,
            stripe_subscription_id := some "sub_1",
            stripe_customer_id := some "cus_1", updated_at := some 1 })]
        "a@b.c"
        { plan := some "month", status := some "canceled",
          current_period_start := some 100000,
          current_period_end := some 200000, canceled_at := some 42,
          stripe_subscription_id := some "sub_1",
          stripe_customer_id := some "cus_1", updated_at := some 42 }) :=
  claim8_subscription_deleted_frame sampleProvider 42 _ sampleSub
    sampleCustomer "a@b.c"
    { plan := some "month", status := some "active",
      current_period_start := some 100000, current_period_end := some 200000,
      canceled_at := none, stripe_subscription_id := some "sub_1",
      stripe_customer_id := some "cus_1", updated_at := some 1 }
    rfl (by decide) (by decide)

/-! ### Claim C9: payment_succeeded delegates to the subscription-update
derivation -/

/-- Claim C9: processing `payment_succeeded` for an invoice referencing a
subscription id produces exactly the same store result as processing
`subscription_updated` for the freshly re-fetched subscription — the code
literally calls `handleSubscriptionChanged` on the fetched object. -/
theorem claim9_payment_succeeded_delegates (P : Provider) (now : Int)
    (storeFails : Bool) (store : Store) (inv : Invoice) (sid : String)
    (sub : StripeSub)
    (hsid : jsOrNull inv.subscription = some sid)
    (hsub : P.subscriptions sid = .ok sub) :
    processEvent P now storeFails store (Event.paymentSucceeded inv) =
      processEvent P now storeFails store (Event.subscriptionUpdated sub) := by
  simp only [processEvent, handlePaymentSucceeded, hsid, hsub]

/-- Witness for C9 on the sample invoice. -/
theorem claim9_payment_succeeded_delegates_witness :
    processEvent sampleProvider 3 false []
        (Event.paymentSucceeded sampleInvoice) =
      processEvent sampleProvider 3 false []
        (Event.subscriptionUpdated sampleSub) :=
  claim9_payment_succeeded_delegates sampleProvider 3 false [] sampleInvoice
    "sub_1" sampleSub (by decide) rfl

/-! ### Claim C2: cancellation invariant (corrected) -/

theorem handleSubscriptionChanged_preserves (P : Provider) (now : Int)
    (storeFails : Bool) (store : Store) (sub : StripeSub) (s : Store)
    (hstatus : sub.status ≠ "canceled")
    (hs : cancelInvariant store)
    (h : handleSubscriptionChanged P now storeFails store sub = .ok s) :
    cancelInvariant s := by
  unfold handleSubscriptionChanged at h
  cases hc : P.customers sub.customer with
  | error e =>
    simp only [hc] at h
    exact Except.noConfusion h
  | ok customer =>
    simp only [hc] at h
    cases hem : jsOrNull customer.email with
    | none =>
      simp only [hem] at h
      exact Except.noConfusion h
    | some em =>
      simp only [hem] at h
      obtain ⟨-, rfl⟩ := updateSubscription_ok _ _ _ _ _ _ h
      apply cancelInvariant_upsert _ _ _ hs
      intro base hst
      simp only [applyPatch, Option.getD_some, Option.some.injEq] at hst
      exact absurd hst hstatus

theorem processEvent_preserves_cancelInvariant (P : Provider) (t : Int)
    (storeFails : Bool) (store : Store) (ev : Event) (s : Store)
    (hs : cancelInvariant store)
    (hev : noCanceledPassthrough P ev)
    (h : processEvent P t storeFails store ev = .ok s) :
    cancelInvariant s := by
  cases ev with
  | checkoutCompleted sess =>
    simp only [processEvent] at h
    unfold handleCheckoutCompleted at h
    cases hps : P.sessions sess.id with
    | error e =>
      simp only [hps] at h
      exact Except.noConfusion h
    | ok fs =>
      simp only [hps] at h
      cases hem : jsOrNull fs.customer_details_email with
      | none =>
        simp only [hem] at h
        exact Except.noConfusion h
      | some em =>
        simp only [hem] at h
        cases hsid : jsOrNull fs.subscription with
        | none =>
          simp only [hsid] at h
          obtain ⟨-, rfl⟩ := updateSubscription_ok _ _ _ _ _ _ h
          apply cancelInvariant_upsert _ _ _ hs
          intro base hst
          simp only [applyPatch, Option.getD_some, Option.some.injEq] at hst
          exact absurd hst (by decide)
        | some sid =>
          simp only [hsid] at h
          cases hsub : P.subscriptions sid with
          | error e =>
            simp only [hsub] at h
            exact Except.noConfusion h
          | ok sub =>
            simp only [hsub] at h
            obtain ⟨-, rfl⟩ := updateSubscription_ok _ _ _ _ _ _ h
            apply cancelInvariant_upsert _ _ _ hs
            intro base hst
            simp only [applyPatch, Option.getD_some, Option.some.injEq] at hst
            exact absurd hst (hev fs hps sid hsid sub hsub)
  | subscriptionUpdated sub =>
    exact handleSubscriptionChanged_preserves _ _ _ _ _ _ hev hs h
  | subscriptionDeleted sub =>
    simp only [processEvent] at h
    unfold handleSubscriptionDeleted at h
    cases hc : P.customers sub.customer with
    | error e =>
      simp only [hc] at h
      exact Except.noConfusion h
    | ok customer =>
      simp only [hc] at h
      cases hem : jsOrNull customer.email with
      | none =>
        simp only [hem] at h
        exact Except.noConfusion h
      | some em =>
        simp only [hem] at h
        obtain ⟨-, rfl⟩ := updateSubscription_ok _ _ _ _ _ _ h
        apply cancelInvariant_upsert _ _ _ hs
        intro base hst
        simp [applyPatch]
  | paymentSucceeded inv =>
    simp only [processEvent] at h
    unfold handlePaymentSucceeded at h
    cases hsid : jsOrNull inv.subscription with
    | none =>
      simp only [hsid] at h
      cases h
      exact hs
    | some sid =>
      simp only [hsid] at h
      cases hsub : P.subscriptions sid with
      | error e =>
        simp only [hsub] at h
        exact Except.noConfusion h
      | ok sub =>
        simp only [hsub] at h
        exact handleSubscriptionChanged_preserves _ _ _ _ _ _
          (hev sid hsid sub hsub) hs h
  | paymentFailed inv =>
    simp only [processEvent] at h
    unfold handlePaymentFailed at h
    cases hc : P.customers inv.customer with
    | error e =>
      simp only [hc] at h
      cases h
      exact hs
    | ok customer =>
      simp only [hc] at h
      cases hem : jsOrNull customer.email with
      | none =>
        simp only [hem] at h
        cases h
        exact hs
      | some em =>
        simp only [hem] at h
        cases hupd : updateSubscription storeFails t store em
            { status := some (some "past_due") } with
        | error e =>
          simp only [hupd] at h
          cases h
          exact hs
        | ok s0 =>
          simp only [hupd] at h
          cases h
          obtain ⟨-, rfl⟩ := updateSubscription_ok _ _ _ _ _ _ hupd
          apply cancelInvariant_upsert _ _ _ hs
          intro base hst
          simp only [applyPatch, Option.getD_some, Option.some.injEq] at hst
          exact absurd hst (by decide)
  | unknown t0 =>
    simp only [processEvent] at h
    cases h
    exact hs

/-- Counterexample to claim C2 as stated: delivering a
`subscription_updated` event whose provider-side status is `canceled`
(email resolvable) to an empty store produces a record with
`status = canceled` and `canceled_at` null — the handler copies the status
through without ever touching `canceled_at`. -/
theorem claim2_cancel_invariant_cex :
    ¬ cancelInvariant (runEvents sampleProvider false []
      [(0, Event.subscriptionUpdated canceledSub)]) := by
  intro h
  exact h "a@b.c"
    { plan := some "month", status := some "canceled",
      current_period_start := some 100000, current_period_end := some 200000,
      canceled_at := none, stripe_subscription_id := some "sub_2",
      stripe_customer_id := none, updated_at := some 0 }
    (by decide) (by decide) rfl

/-- Claim C2 amended: `subscription_deleted` (the only operation that sets
`canceled_at`) always writes a non-null `canceled_at` alongside
`status = canceled`; the cancellation invariant holds after any sequence of
events provided none of them passes a provider-side status of `canceled`
through the status-copying paths (`subscription_updated`,
`checkout_completed` with a subscription, `payment_succeeded`), which copy
the status verbatim without setting `canceled_at`. -/
theorem claim2_cancel_invariant_amended (P : Provider) (storeFails : Bool)
    (store : Store) (evs : List (Int × Event))
    (hs : cancelInvariant store)
    (hevs : ∀ p ∈ evs, noCanceledPassthrough P p.2) :
    cancelInvariant (runEvents P storeFails store evs) := by
  induction evs generalizing store with
  | nil => exact hs
  | cons hd tl ih =>
    obtain ⟨t, ev⟩ := hd
    simp only [runEvents]
    cases h : processEvent P t storeFails store ev with
    | ok s =>
      exact ih s
        (processEvent_preserves_cancelInvariant _ _ _ _ _ _ hs
          (hevs _ (List.mem_cons_self _ _)) h)
        (fun p hp => hevs p (List.mem_cons_of_mem _ hp))
    | error e =>
      exact ih store hs (fun p hp => hevs p (List.mem_cons_of_mem _ hp))

/-- Witness for the amended C2: after a `subscription_deleted` delivery on
an empty store, the invariant holds. -/
theorem claim2_cancel_invariant_amended_witness :
    cancelInvariant (runEvents sampleProvider false []
      [(5, Event.subscriptionDeleted sampleSub)]) :=
  claim2_cancel_invariant_amended sampleProvider false []
    [(5, Event.subscriptionDeleted sampleSub)]
    (fun e r hfind => by simp [findRec] at hfind)
    (fun p hp => by
      rw [List.mem_singleton] at hp
      subst hp
      exact trivial)

/-! ### Claim C4: checkout idempotence (corrected) -/

theorem handleCheckoutCompleted_withSub (P : Provider) (now : Int)
    (store : Store) (s fs : Session) (em sid : String) (sub : StripeSub)
    (hs : P.sessions s.id = .ok fs)
    (he : jsOrNull fs.customer_details_email = some em)
    (hsid : jsOrNull fs.subscription = some sid)
    (hsub : P.subscriptions sid = .ok sub) :
    handleCheckoutCompleted P now false store s =
      .ok (supabaseUpsert store em
        (checkoutSubPatch now sid sub (jsOrNull fs.customer))) := by
  simp only [handleCheckoutCompleted, hs, he, hsid, hsub, updateSubscription,
    Bool.false_eq_true, if_false]
  rfl

theorem sansUpdated_applyPatch_checkout (base : SubRecord) (t1 t2 : Int)
    (sid : String) (sub : StripeSub) (cust : Option String) :
    sansUpdated (applyPatch (applyPatch base (checkoutSubPatch t1 sid sub cust))
        (checkoutSubPatch t2 sid sub cust)) =
      sansUpdated (applyPatch base (checkoutSubPatch t1 sid sub cust)) := by
  rfl

/-- Counterexample to claim C4 as stated: for a `checkout_completed` event
whose session has NO subscription id, `current_period_start` is stamped
with the processing time, so delivering the identical event twice (at
times 0 and 1) differs from a single delivery in a field other than
`updated_at`. -/
theorem claim4_checkout_idempotent_cex :
    (findRec (runEvents oneTimeProvider false []
        [(0, Event.checkoutCompleted oneTimeSession),
         (1, Event.checkoutCompleted oneTimeSession)]) "a@b.c").map sansUpdated
      ≠
    (findRec (runEvents oneTimeProvider false []
        [(0, Event.checkoutCompleted oneTimeSession)]) "a@b.c").map
      sansUpdated := by
  decide

/-- Claim C4 amended: delivering the identical `checkout_completed` event
twice (same provider responses both times) yields a record whose fields
equal a single delivery's result with only `updated_at` differing,
PROVIDED the re-fetched session references a subscription id; when it does
not, `current_period_start` is set to the processing time of each delivery
and may differ as well. -/
theorem claim4_checkout_idempotent_with_subscription (P : Provider)
    (t1 t2 : Int) (store : Store) (s fs : Session) (em sid : String)
    (sub : StripeSub) (e' : String)
    (hs : P.sessions s.id = .ok fs)
    (he : jsOrNull fs.customer_details_email = some em)
    (hsid : jsOrNull fs.subscription = some sid)
    (hsub : P.subscriptions sid = .ok sub) :
    (findRec (runEvents P false store
        [(t1, Event.checkoutCompleted s), (t2, Event.checkoutCompleted s)])
        e').map sansUpdated =
      (findRec (runEvents P false store [(t1, Event.checkoutCompleted s)])
        e').map sansUpdated := by
  have h1 := handleCheckoutCompleted_withSub P t1 store s fs em sid sub
    hs he hsid hsub
  have h2 := handleCheckoutCompleted_withSub P t2
    (supabaseUpsert store em (checkoutSubPatch t1 sid sub (jsOrNull fs.customer)))
    s fs em sid sub hs he hsid hsub
  simp only [runEvents, processEvent, h1, h2]
  by_cases hc : e' = em
  · subst hc
    simp only [supabaseUpsert, findRec_putRec_self, Option.getD_some,
      Option.map_some']
    exact congrArg some (sansUpdated_applyPatch_checkout _ _ _ _ _ _)
  · simp only [supabaseUpsert]
    rw [findRec_putRec_ne _ _ _ _ hc]

/-- Witness for the amended C4: double delivery of the sample
subscription-bearing checkout equals single delivery modulo
`updated_at`. -/
theorem claim4_checkout_idempotent_with_subscription_witness :
    (findRec (runEvents sampleProvider false []
        [(0, Event.checkoutCompleted sampleSession),
         (1, Event.checkoutCompleted sampleSession)]) "a@b.c").map sansUpdated
      =
    (findRec (runEvents sampleProvider false []
        [(0, Event.checkoutCompleted sampleSession)]) "a@b.c").map
      sansUpdated :=
  claim4_checkout_idempotent_with_subscription sampleProvider 0 1 []
    sampleSession sampleSession "a@b.c" "sub_1" sampleSub "a@b.c" rfl
    (by decide) (by decide) rfl

end RhymeTime
